/-
Verification of the earthengine-py-documentation notebooks.

The repository is a set of Jupyter notebooks.  Each notebook is a list of
code cells; each code cell is a list of Python statements that either build
client-side Earth Engine expression trees (pure construction), issue a
blocking remote call (getInfo, Map.addLayer), or configure the folium map
widget.  We embed the notebooks as data over a small statement language,
give an event-trace semantics (remote calls, phases, map-widget state), a
small exception semantics for the bootstrap cell, and pointwise semantics
for the image-algebra fragment used by the cost and hotspots expressions.
-/
import Mathlib

set_option maxRecDepth 10000

/-- A numeric literal exactly as the source writes it: mantissa and number
of digits after the decimal point, denoting mant / 10 ^ exp. -/
structure Dec where
  mant : Int
  exp : Nat
deriving DecidableEq

/-- Client-built Earth Engine expression trees: every client API call is a
named call node over argument subtrees; leaves are numeric literals, string
literals, booleans and references to previously bound Python variables. -/
inductive EEExpr where
  | num  (n : Dec)
  | str  (s : String)
  | bool (b : Bool)
  | var  (x : String)
  | call (op : String) (args : List EEExpr)

/-- An integer literal of the source. -/
def EEExpr.int (n : Int) : EEExpr := .num ⟨n, 0⟩

/-- A Dec with no digits after the decimal point. -/
def di (n : Int) : Dec := ⟨n, 0⟩

/-- Statements occurring in the code cells of the notebooks. -/
inductive Stmt where
  | pyImport (m : String)
  | installGuard (pkg : String)
  | tryInitAuth
  | assign (x : String) (e : EEExpr)
  | assignPy (x : String)
  | defFun (f : String) (body : EEExpr)
  | newMap (lat lon : Dec) (zoom : Nat)
  | setOptions (s : String)
  | setCenter (lon lat : Dec) (zoom : Nat)
  | centerObject (x : String) (zoom : Nat)
  | addLayer (e : EEExpr) (vis : List (String × EEExpr)) (label : String)
  | printGetInfo (caption : String) (e : EEExpr)
  | setControls
  | display
  | forRange (n : Nat) (body : List Stmt)

/-- A code cell is a list of statements. -/
abbrev Cell := List Stmt

/-- A notebook: a name and its code cells in order. -/
structure Notebook where
  name : String
  cells : List Cell

/-- Observable events produced by executing a statement.  Remote (blocking,
network) events are submitMeta (a getInfo round trip returning scalar or
metadata) and submitTile (an addLayer round trip returning a tile URL);
everything else is client-local. -/
inductive Event where
  | bootGuard
  | sessionInit
  | newMap (lat lon : Dec) (zoom : Nat)
  | setOptions (s : String)
  | setCenter (lon lat : Dec) (zoom : Nat)
  | centerObject (x : String) (zoom : Nat)
  | setControls
  | construct (x : String)
  | defineFn (f : String)
  | submitMeta (e : EEExpr)
  | submitTile (e : EEExpr) (label : String)
  | render (label : String)
  | showMap

mutual

/-- Event trace of a single statement.  A for-loop over range(0, n) repeats
its body trace n times; an addLayer call submits the expression (one
blocking call returning a tile URL) and then renders the returned tiles. -/
def stmtTrace : Stmt → List Event
  | .pyImport _ => []
  | .installGuard _ => [.bootGuard]
  | .tryInitAuth => [.sessionInit]
  | .assign x _ => [.construct x]
  | .assignPy _ => []
  | .defFun f _ => [.defineFn f]
  | .newMap lat lon z => [.newMap lat lon z]
  | .setOptions s => [.setOptions s]
  | .setCenter lon lat z => [.setCenter lon lat z]
  | .centerObject x z => [.centerObject x z]
  | .addLayer e _ label => [.submitTile e label, .render label]
  | .printGetInfo _ e => [.submitMeta e]
  | .setControls => [.setControls]
  | .display => [.showMap]
  | .forRange n body => (List.replicate n (stmtListTrace body)).flatten

/-- Event trace of a statement list, in order. -/
def stmtListTrace : List Stmt → List Event
  | [] => []
  | s :: rest => stmtTrace s ++ stmtListTrace rest

end

/-- Event trace of a cell. -/
def cellTrace (c : Cell) : List Event := stmtListTrace c

/-- Event trace of a whole notebook, cells in order. -/
def nbTrace (nb : Notebook) : List Event := (nb.cells.map cellTrace).flatten

/-- Is this event a blocking remote call to the Earth Engine service? -/
def isRemote : Event → Bool
  | .submitMeta _ => true
  | .submitTile _ _ => true
  | _ => false

/-- The remote calls performed while executing a cell. -/
def remoteTrace (c : Cell) : List Event := (cellTrace c).filter isRemote

mutual

/-- Number of getInfo / addLayer invocations a statement executes (loop
bodies count once per iteration). -/
def stmtSubmitCount : Stmt → Nat
  | .addLayer _ _ _ => 1
  | .printGetInfo _ _ => 1
  | .forRange n body => n * stmtListSubmitCount body
  | _ => 0

/-- Number of getInfo / addLayer invocations a statement list executes. -/
def stmtListSubmitCount : List Stmt → Nat
  | [] => 0
  | s :: rest => stmtSubmitCount s + stmtListSubmitCount rest

end

/-- Number of getInfo / addLayer invocations a cell executes. -/
def cellSubmitCount (c : Cell) : Nat := stmtListSubmitCount c

mutual

/-- Number of call nodes named op in an expression tree. -/
def exprOpCount (op : String) : EEExpr → Nat
  | .num _ => 0
  | .str _ => 0
  | .bool _ => 0
  | .var _ => 0
  | .call f args => (if f = op then 1 else 0) + exprListOpCount op args

/-- Number of call nodes named op in a list of expression trees. -/
def exprListOpCount (op : String) : List EEExpr → Nat
  | [] => 0
  | e :: rest => exprOpCount op e + exprListOpCount op rest

end

mutual

/-- Number of call nodes named op occurring syntactically in a statement
(loop bodies count once: this measures the program text, not a run). -/
def stmtOpCount (op : String) : Stmt → Nat
  | .assign _ e => exprOpCount op e
  | .defFun _ body => exprOpCount op body
  | .addLayer e vis _ => exprOpCount op e + exprListOpCount op (vis.map Prod.snd)
  | .printGetInfo _ e => exprOpCount op e
  | .forRange _ body => stmtListOpCount op body
  | _ => 0

/-- Number of call nodes named op occurring syntactically in a statement
list. -/
def stmtListOpCount (op : String) : List Stmt → Nat
  | [] => 0
  | s :: rest => stmtOpCount op s + stmtListOpCount op rest

end

/-- Number of call nodes named op in the whole notebook. -/
def nbOpCount (op : String) (nb : Notebook) : Nat :=
  (nb.cells.map (stmtListOpCount op)).sum

mutual

/-- Variable references occurring in an expression tree. -/
def exprVars : EEExpr → List String
  | .num _ => []
  | .str _ => []
  | .bool _ => []
  | .var x => [x]
  | .call _ args => exprListVars args

/-- Variable references occurring in a list of expression trees. -/
def exprListVars : List EEExpr → List String
  | [] => []
  | e :: rest => exprVars e ++ exprListVars rest

end

/-- Phase of an event in the six-step structure the specification states:
0 dependency bootstrap, 1 session initialization, 2 basemap construction,
3 declarative-expression construction, 4 submission to the remote service,
5 rendering of returned tile layers.  Client-side widget configuration and
Python function definitions belong to none of the six steps. -/
def phase : Event → Option Nat
  | .bootGuard => some 0
  | .sessionInit => some 1
  | .newMap _ _ _ => some 2
  | .setOptions _ => some 2
  | .construct _ => some 3
  | .submitMeta _ => some 4
  | .submitTile _ _ => some 4
  | .render _ => some 5
  | _ => none

/-- The sequence of six-step phases of one notebook execution. -/
def phaseSeq (nb : Notebook) : List Nat := (nbTrace nb).filterMap phase

/-- Is a list of naturals weakly increasing? -/
def sortedB : List Nat → Bool
  | [] => true
  | [_] => true
  | a :: b :: rest => decide (a ≤ b) && sortedB (b :: rest)

/-- Index of the first occurrence of p in l, if any. -/
def firstOccIdx (p : Nat) (l : List Nat) : Option Nat := l.findIdx? (· = p)

/-- Do all six phases occur, with their first occurrences in increasing
order 0 before 1 before ... before 5? -/
def orderedSteps (l : List Nat) : Bool :=
  match firstOccIdx 0 l, firstOccIdx 1 l, firstOccIdx 2 l,
        firstOccIdx 3 l, firstOccIdx 4 l, firstOccIdx 5 l with
  | some a, some b, some c, some d, some e, some f =>
      decide (a < b) && decide (b < c) && decide (c < d) &&
      decide (d < e) && decide (e < f)
  | _, _, _, _, _, _ => false

/-- Every variable referenced by a submitted expression was bound by an
earlier construction or function definition in the trace: the expression is
a fully constructed local payload when the blocking call submits it. -/
def submitsWellFormed (env : List String) : List Event → Bool
  | [] => true
  | .construct x :: rest => submitsWellFormed (x :: env) rest
  | .defineFn f :: rest => submitsWellFormed (f :: env) rest
  | .submitMeta e :: rest =>
      (exprVars e).all (fun x => env.contains x) && submitsWellFormed env rest
  | .submitTile e _ :: rest =>
      (exprVars e).all (fun x => env.contains x) && submitsWellFormed env rest
  | _ :: rest => submitsWellFormed env rest

/-- Kind of value a remote call hands back to the client. -/
inductive ResKind where
  | tileURL
  | metadata
  | pixelArray
deriving DecidableEq

/-- Result kind of an event: getInfo round trips return serialized scalar
or metadata values, addLayer round trips return a tile URL; client-local
events return nothing over the network. -/
def resultKind : Event → Option ResKind
  | .submitMeta _ => some .metadata
  | .submitTile _ _ => some .tileURL
  | _ => none

/-- Client-side state of the folium map widget. -/
structure MapState where
  created : Bool
  location : Option (Dec × Dec × Nat)
  options : Option String
  centerTarget : Option (String × Nat)
  layers : List String
  controls : Bool
deriving DecidableEq

/-- The state before any folium.Map has been constructed. -/
def emptyMap : MapState :=
  { created := false, location := none, options := none,
    centerTarget := none, layers := [], controls := false }

/-- Effect of one event on the map-widget state.  Constructing a new
folium.Map rebinds the Map variable to a fresh widget; rendering a returned
tile layer appends it to the overlay list of the widget; remote submissions and
pure expression constructions leave the widget untouched. -/
def applyEvent (st : MapState) : Event → MapState
  | .newMap lat lon z =>
      { created := true, location := some (lat, lon, z), options := none,
        centerTarget := none, layers := [], controls := false }
  | .setOptions s => { st with options := some s }
  | .setCenter lon lat z => { st with location := some (lat, lon, z) }
  | .centerObject x z => { st with centerTarget := some (x, z) }
  | .setControls => { st with controls := true }
  | .render label => { st with layers := st.layers ++ [label] }
  | _ => st

/-- Does this event touch the map widget? -/
def isMapEvent : Event → Bool
  | .newMap _ _ _ => true
  | .setOptions _ => true
  | .setCenter _ _ _ => true
  | .centerObject _ _ => true
  | .setControls => true
  | .render _ => true
  | _ => false

/-- Run the events of one cell over the map state. -/
def runCell (st : MapState) (c : Cell) : MapState :=
  (cellTrace c).foldl applyEvent st

/-- Count the cells whose execution changes the map-widget state, threading
the state through the notebook in order. -/
def mutCount (st : MapState) : List Cell → Nat
  | [] => 0
  | c :: rest =>
      let st' := runCell st c
      (if st' = st then 0 else 1) + mutCount st' rest

/-- Number of cells of a notebook that mutate the map-widget state. -/
def mutatingCellCount (nb : Notebook) : Nat := mutCount emptyMap nb.cells

/-!
Exception semantics of the bootstrap cell.  Every notebook opens with the
same cell: a try block whose body loads geehydro and whose except
ImportError handler pip-installs it, the library module loads, and a try
block calling ee.Initialize whose bare except handler calls
ee.Authenticate and then ee.Initialize again.  We give these statements a
small operational semantics over a world that says whether geehydro is
installed and whether each successive ee.Initialize attempt succeeds.
-/

/-- Primitive Python actions of the bootstrap cell. -/
inductive PyAct where
  | loadPkg (p : String)
  | printMsg
  | pipInstall (p : String)
  | eeInitialize
  | eeAuthenticate
deriving DecidableEq

/-- Errors an action can raise: a missing module raises errImport, a
failed ee.Initialize raises a generic exception. -/
inductive PyErr where
  | errImport
  | errGeneric
deriving DecidableEq

/-- Statements of the bootstrap cell: plain action calls, a try block
whose handler fires on ImportError only, and a try block whose bare except
handler fires on any exception. -/
inductive PyStmt where
  | act (a : PyAct)
  | tryCatchImp (body handler : List PyStmt)
  | tryCatchAll (body handler : List PyStmt)

/-- The environment the bootstrap cell runs against: whether geehydro can
be loaded, and the outcomes of the first and second ee.Initialize
attempts (ee.Authenticate is the interactive login step and completes). -/
structure World where
  geehydroInstalled : Bool
  init1Ok : Bool
  init2Ok : Bool
  initAttempts : Nat
deriving DecidableEq

/-- Run one primitive action: new world, and the error it raises if any.
Loading geehydro raises ImportError exactly when it is not installed; pip
install makes it installed; the n-th ee.Initialize attempt raises a
generic exception when its outcome flag is false. -/
def runAct (w : World) : PyAct → World × Option PyErr
  | .loadPkg p =>
      if p = "geehydro" ∧ ¬ w.geehydroInstalled then (w, some .errImport)
      else (w, none)
  | .printMsg => (w, none)
  | .pipInstall p =>
      if p = "geehydro" then ({ w with geehydroInstalled := true }, none)
      else (w, none)
  | .eeInitialize =>
      let ok := if w.initAttempts = 0 then w.init1Ok else w.init2Ok
      ({ w with initAttempts := w.initAttempts + 1 },
       if ok then none else some .errGeneric)
  | .eeAuthenticate => (w, none)

mutual

/-- Execute one bootstrap statement: final world, the actions performed in
order, and the uncaught error if one propagates. -/
def execStmt (w : World) : PyStmt → World × List PyAct × Option PyErr
  | .act a =>
      let (w', err) := runAct w a
      (w', [a], err)
  | .tryCatchImp body handler =>
      let (w', acts, err) := execStmts w body
      match err with
      | some .errImport =>
          let (w'', acts2, err2) := execStmts w' handler
          (w'', acts ++ acts2, err2)
      | _ => (w', acts, err)
  | .tryCatchAll body handler =>
      let (w', acts, err) := execStmts w body
      match err with
      | some _ =>
          let (w'', acts2, err2) := execStmts w' handler
          (w'', acts ++ acts2, err2)
      | none => (w', acts, none)

/-- Execute bootstrap statements in order, stopping at the first uncaught
error, which propagates. -/
def execStmts (w : World) : List PyStmt → World × List PyAct × Option PyErr
  | [] => (w, [], none)
  | s :: rest =>
      let (w', acts, err) := execStmt w s
      match err with
      | some e => (w', acts, some e)
      | none =>
          let (w'', acts2, err2) := execStmts w' rest
          (w'', acts ++ acts2, err2)

end

/-- The install-if-missing guard at the top of every notebook:
try to load geehydro and, on ImportError only, print a message and
pip-install it. -/
def guardStmts : List PyStmt :=
  [.tryCatchImp [.act (.loadPkg "geehydro")]
                [.act .printMsg, .act (.pipInstall "geehydro")]]

/-- The session-initialization block of every notebook: call
ee.Initialize and, on any exception, call ee.Authenticate and then
ee.Initialize once more. -/
def initAuthStmts : List PyStmt :=
  [.tryCatchAll [.act .eeInitialize]
                [.act .eeAuthenticate, .act .eeInitialize]]

/-- The whole bootstrap cell of every notebook: the install guard, the
library module loads, and the session-initialization block. -/
def bootstrapStmts : List PyStmt :=
  [.act (.loadPkg "subprocess")] ++ guardStmts ++
  [.act (.loadPkg "ee"), .act (.loadPkg "folium"),
   .act (.loadPkg "geehydro")] ++ initAuthStmts

/-- A world before the bootstrap cell runs: no ee.Initialize attempted. -/
def world0 (g i1 i2 : Bool) : World :=
  { geehydroInstalled := g, init1Ok := i1, init2Ok := i2, initAttempts := 0 }

/-!
The corpus: the five notebooks, cell by cell, statement by statement.
Python keyword-argument dictionaries passed to Earth Engine calls are
encoded as positional arguments in dictionary order; labels built with
str(i + 1) inside the loop are encoded by their base string.
-/

/-- The bootstrap cell shared verbatim by all five notebooks. -/
def bootstrapCell : Cell :=
  [.pyImport "subprocess", .installGuard "geehydro", .pyImport "ee",
   .pyImport "folium", .pyImport "geehydro", .tryInitAuth]

/-- The basemap cell shared verbatim by all five notebooks:
Map = folium.Map(location=[40, -100], zoom_start=4); Map.setOptions. -/
def basemapCell : Cell :=
  [.newMap (di 40) (di (-100)) 4, .setOptions "HYBRID"]

/-- The closing cell: Map.setControlVisibility and the final Map display
expression. -/
def controlsCell : Cell := [.setControls, .display]

/-- collection = ee.ImageCollection(id).filter(ee.Filter.eq(WRS_PATH, 44))
.filter(ee.Filter.eq(WRS_ROW, 34)). -/
def pathRowCollection (id : String) : EEExpr :=
  .call "filter"
    [.call "filter"
      [.call "ImageCollection" [.str id],
       .call "Filter.eq" [.str "WRS_PATH", .int 44]],
     .call "Filter.eq" [.str "WRS_ROW", .int 34]]

/-- The body of addTime: image.addBands(image.metadata(system:time_start)),
also used inline as a lambda. -/
def addTimeBody : EEExpr :=
  .call "addBands"
    [.var "image", .call "metadata" [.var "image", .str "system:time_start"]]

/-- The body of calNDVI: image.normalizedDifference([B5, B4]), also used
inline as a lambda. -/
def calNDVIBody : EEExpr :=
  .call "normalizedDifference"
    [.var "image", .call "list" [.str "B5", .str "B4"]]

/-- The Knoxville collection: ee.ImageCollection(LANDSAT/LC8_L1T_TOA)
.filterBounds(point).sort(CLOUD_COVER).limit(3). -/
def knoxCollection : EEExpr :=
  .call "limit"
    [.call "sort"
      [.call "filterBounds"
        [.call "ImageCollection" [.str "LANDSAT/LC8_L1T_TOA"], .var "point"],
       .str "CLOUD_COVER"],
     .int 3]

/-- The NDVI visualization parameters dictionary vizParams. -/
def vizParamsDict : List (String × EEExpr) :=
  [("bands", .call "list" [.str "B5", .str "B4", .str "B3"]),
   ("min", .int 0), ("max", .num ⟨4, 1⟩)]

/-- The display loop of the mapping notebook: for i in range(0, 3), bind
the i-th Landsat image and the i-th NDVI image and add both to the map. -/
def ndviLoop : Stmt :=
  .forRange 3
    [.assign "landsat"
      (.call "Image" [.call "get" [.call "toList" [.var "collection", .int 3], .var "i"]]),
     .assign "ndvi"
      (.call "Image" [.call "get" [.call "toList" [.var "ndvi_images", .int 3], .var "i"]]),
     .addLayer (.var "landsat") vizParamsDict "Landsat image ",
     .addLayer (.var "ndvi") [("palette", .call "list" [.str "red", .str "green"])] "NDVI image "]

/-- The NDVI display cell of the mapping notebook (named-function form):
builds point, collection and ndvi_images, rebuilds the basemap, and loops
three times adding two layers per iteration. -/
def ndviCellNamed : Cell :=
  [.defFun "calNDVI" calNDVIBody,
   .assign "point" (.call "Geometry.Point" [.num ⟨-8393, 2⟩, .num ⟨3585, 2⟩]),
   .assign "collection" knoxCollection,
   .assign "ndvi_images" (.call "map" [.var "collection", .var "calNDVI"]),
   .assignPy "vizParams",
   .newMap (di 40) (di (-100)) 4, .setOptions "HYBRID", .centerObject "point" 8,
   ndviLoop, .setControls, .display]

/-- The NDVI display cell of the mapping notebook (lambda form). -/
def ndviCellLambda : Cell :=
  [.assign "point" (.call "Geometry.Point" [.num ⟨-8393, 2⟩, .num ⟨3585, 2⟩]),
   .assign "collection" knoxCollection,
   .assign "ndvi_images"
     (.call "map" [.var "collection", .call "lambda" [calNDVIBody]]),
   .assignPy "vizParams",
   .newMap (di 40) (di (-100)) 4, .setOptions "HYBRID", .centerObject "point" 8,
   ndviLoop, .setControls, .display]

/-- Notebook 04_mapping_over_image_collection. -/
def mappingNb : Notebook :=
  { name := "04_mapping_over_image_collection",
    cells :=
      [bootstrapCell,
       basemapCell,
       [.defFun "addTime" addTimeBody,
        .assign "collection" (pathRowCollection "LANDSAT/LC08/C01/T1_TOA"),
        .assign "first" (.call "first" [.call "map" [.var "collection", .var "addTime"]]),
        .printGetInfo "" (.call "bandNames" [.var "first"])],
       [.assign "collection" (pathRowCollection "LANDSAT/LC08/C01/T1_TOA"),
        .assign "first"
          (.call "first" [.call "map" [.var "collection", .call "lambda" [addTimeBody]]]),
        .printGetInfo "" (.call "bandNames" [.var "first"])],
       [.defFun "conditional"
          (.call "Algorithms.If"
            [.call "gt" [.call "Number" [.call "get" [.var "image", .str "SUN_ELEVATION"]], .int 40],
             .var "image", .call "Image" [.int 0]]),
        .assign "collection" (pathRowCollection "LANDSAT/LC08/C01/T1_TOA"),
        .assign "collection" (pathRowCollection "LANDSAT/LC8_L1T_TOA")],
       ndviCellNamed,
       ndviCellLambda] }

/-- The Image-information notebook: loads one Landsat image, displays it,
and inspects band names, projections, scales, property names, cloud cover
and timestamps with one getInfo call per cell. -/
def imageInfoNb : Notebook :=
  { name := "image_information_and_metadata",
    cells :=
      [bootstrapCell,
       basemapCell,
       [.assign "image" (.call "Image" [.str "LANDSAT/LC8_L1T/LC80440342014077LGN00"]),
        .addLayer (.var "image")
          [("bands", .call "list" [.str "B5", .str "B4", .str "B3"])] "Landsat image",
        .centerObject "image" 8],
       [.assign "bandNames" (.call "bandNames" [.var "image"]),
        .printGetInfo "Band names: " (.var "bandNames")],
       [.assign "b1proj" (.call "projection" [.call "select" [.var "image", .str "B1"]]),
        .printGetInfo "Band 1 projection: " (.var "b1proj")],
       [.assign "b1scale"
          (.call "nominalScale" [.call "projection" [.call "select" [.var "image", .str "B1"]]]),
        .printGetInfo "Band 1 scale: " (.var "b1scale")],
       [.assign "b8scale"
          (.call "nominalScale" [.call "projection" [.call "select" [.var "image", .str "B8"]]]),
        .printGetInfo "Band 8 scale: " (.var "b8scale")],
       [.assign "properties" (.call "propertyNames" [.var "image"]),
        .printGetInfo "Metadata properties: " (.var "properties")],
       [.assign "cloudiness" (.call "get" [.var "image", .str "CLOUD_COVER"]),
        .printGetInfo "CLOUD_COVER: " (.var "cloudiness")],
       [.assign "date" (.call "Date" [.call "get" [.var "image", .str "system:time_start"]]),
        .printGetInfo "Timestamp: " (.var "date")],
       [.assign "date2" (.call "format" [.var "date", .str "YYYY-MM-dd"]),
        .printGetInfo "Timestamp: " (.var "date2")],
       controlsCell] }

/-- Notebook Image/09_edge_detection. -/
def edgeNb : Notebook :=
  { name := "09_edge_detection",
    cells :=
      [bootstrapCell,
       basemapCell,
       [.assign "image"
          (.call "select" [.call "Image" [.str "LANDSAT/LC08/C01/T1/LC08_044034_20140318"], .str "B8"]),
        .assign "canny"
          (.call "Algorithms.CannyEdgeDetector" [.var "image", .int 10, .int 1]),
        .setCenter ⟨-122054, 3⟩ ⟨377295, 4⟩ 10,
        .addLayer (.var "canny") [] "canny"],
       [.assign "hough"
          (.call "Algorithms.HoughTransform" [.var "canny", .int 256, .int 600, .int 100]),
        .addLayer (.var "hough") [] "hough"],
       [.assign "image"
          (.call "select" [.call "Image" [.str "LANDSAT/LC08/C01/T1/LC08_044034_20140318"], .str "B8"]),
        .addLayer (.var "image") [("max", .int 12000)] "",
        .assign "fat"
          (.call "Kernel.gaussian"
            [.int 3, .int 3, .str "pixels", .bool true, .int (-1)]),
        .assign "skinny"
          (.call "Kernel.gaussian" [.int 3, .int 1, .str "pixels", .bool true]),
        .assign "dog" (.call "add" [.var "fat", .var "skinny"]),
        .assign "zeroXings" (.call "zeroCrossing" [.call "convolve" [.var "image", .var "dog"]]),
        .setCenter ⟨-122054, 3⟩ ⟨377295, 4⟩ 10,
        .addLayer (.call "updateMask" [.var "zeroXings", .var "zeroXings"])
          [("palette", .str "FF0000")] "zero crossings",
        .setControls, .display]] }

/-- Notebook Image/12_object_based_methods. -/
def objectNb : Notebook :=
  { name := "12_object_based_methods",
    cells :=
      [bootstrapCell,
       basemapCell,
       [.assign "point" (.call "Geometry.Point" [.num ⟨-1221899, 4⟩, .num ⟨375010, 4⟩]),
        .assign "aoi" (.call "buffer" [.var "point", .int 10000]),
        .assign "kelvin"
          (.call "clip"
            [.call "select"
              [.call "Image" [.str "LANDSAT/LC08/C01/T1_TOA/LC08_044034_20140318"],
               .call "list" [.str "B10"], .call "list" [.str "kelvin"]],
             .var "aoi"]),
        .setCenter ⟨-1221899, 4⟩ ⟨375010, 4⟩ 13,
        .addLayer (.var "kelvin") [("min", .int 288), ("max", .int 305)] "Kelvin",
        .assign "hotspots"
          (.call "rename" [.call "selfMask" [.call "gt" [.var "kelvin", .int 303]], .str "hotspots"]),
        .addLayer (.var "hotspots") [("palette", .str "FF0000")] "Hotspots"],
       [.assign "objectId"
          (.call "connectedComponents" [.var "hotspots", .call "Kernel.plus" [.int 1], .int 128]),
        .addLayer (.call "randomVisualizer" [.var "objectId"]) [] "Objects"],
       [.assign "objectSize"
          (.call "connectedPixelCount"
            [.call "select" [.var "objectId", .str "labels"], .int 128, .bool false]),
        .addLayer (.var "objectSize") [] "Object n pixels"],
       [.assign "pixelArea" (.call "Image.pixelArea" []),
        .assign "objectArea" (.call "multiply" [.var "objectSize", .var "pixelArea"]),
        .addLayer (.var "objectArea") [] "Object area m^2"],
       [.assign "areaMask" (.call "gte" [.var "objectArea", .int 10000]),
        .assign "objectId" (.call "updateMask" [.var "objectId", .var "areaMask"]),
        .addLayer (.var "objectId") [] "Large hotspots"],
       [.assign "kelvin"
          (.call "addBands" [.var "kelvin", .call "select" [.var "objectId", .str "labels"]]),
        .assign "patchTemp"
          (.call "reduceConnectedComponents"
            [.var "kelvin", .call "Reducer.mean" [], .str "labels"]),
        .addLayer (.var "patchTemp")
          [("min", .int 303), ("max", .int 304),
           ("palette", .call "list" [.str "yellow", .str "red"])] "Mean temperature"],
       controlsCell] }

/-- cover.eq(c) for a GLOBCOVER class constant c. -/
def coverEq (c : Int) : EEExpr := .call "eq" [.var "cover", .int c]

/-- The cost expression of the cumulative-cost notebook: indicators of the
three GLOBCOVER class groups weighted 1, 2 and 3 and summed. -/
def costExpr : EEExpr :=
  .call "add"
    [.call "multiply"
      [.call "Or"
        [.call "Or" [.call "Or" [coverEq 60, coverEq 80], coverEq 110], coverEq 140],
       .int 1],
     .call "add"
      [.call "multiply"
        [.call "Or"
          [.call "Or"
            [.call "Or" [.call "Or" [coverEq 40, coverEq 90], coverEq 120], coverEq 130],
           coverEq 170],
         .int 2],
       .call "multiply"
        [.call "Or"
          [.call "Or" [.call "Or" [coverEq 50, coverEq 70], coverEq 150], coverEq 160],
         .int 3]]]

/-- Notebook Image/13_cumulative_cost_mapping. -/
def costNb : Notebook :=
  { name := "13_cumulative_cost_mapping",
    cells :=
      [bootstrapCell,
       basemapCell,
       [.assign "geometry"
          (.call "Geometry.Rectangle" [.num ⟨185229, 4⟩, .num ⟨43491, 4⟩, .num ⟨185833, 4⟩, .num ⟨44066, 4⟩]),
        .assign "sources" (.call "paint" [.call "toByte" [.call "Image" []], .var "geometry", .int 1]),
        .assign "sources" (.call "updateMask" [.var "sources", .var "sources"]),
        .assign "cover"
          (.call "select" [.call "Image" [.str "ESA/GLOBCOVER_L4_200901_200912_V2_3"], .int 0]),
        .assign "cost" costExpr,
        .assign "cumulativeCost"
          (.call "cumulativeCost" [.var "cost", .var "sources", .int 80000]),
        .setCenter ⟨1871, 2⟩ ⟨42, 1⟩ 9,
        .addLayer (.var "cover") [] "Globcover",
        .addLayer (.var "cumulativeCost") [("min", .int 0), ("max", .int 50000)] "accumulated cost",
        .addLayer (.var "geometry") [("color", .str "FF0000")] "source geometry"],
       controlsCell] }

/-- The five notebooks of the repository. -/
def corpus : List Notebook :=
  [mappingNb, imageInfoNb, edgeNb, objectNb, costNb]

mutual

/-- Number of exception handlers occurring syntactically in a statement:
the install guard and the initialize/authenticate block each carry one. -/
def stmtHandlerCount : Stmt → Nat
  | .installGuard _ => 1
  | .tryInitAuth => 1
  | .forRange _ body => stmtListHandlerCount body
  | _ => 0

/-- Number of exception handlers occurring syntactically in a statement
list. -/
def stmtListHandlerCount : List Stmt → Nat
  | [] => 0
  | s :: rest => stmtHandlerCount s + stmtListHandlerCount rest

end

/-!
Pointwise semantics of the image-algebra fragment.  Earth Engine images
are rasters; eq, Or, multiply, add, gt act pixelwise, and masking makes a
pixel value absent.  We model one pixel: present values are numbers,
masked pixels are none.
-/

/-- Pointwise eq of Earth Engine: 1 where the values are equal, else 0. -/
def eeEq (x y : ℤ) : ℤ := if x = y then 1 else 0

/-- Pointwise Or of Earth Engine: 1 where either input is nonzero. -/
def eeOr (x y : ℤ) : ℤ := if x ≠ 0 ∨ y ≠ 0 then 1 else 0

/-- cover.eq(60).Or(cover.eq(80)).Or(cover.eq(110)).Or(cover.eq(140)),
pointwise on the GLOBCOVER class value v. -/
def costClass1 (v : ℤ) : ℤ :=
  eeOr (eeOr (eeOr (eeEq v 60) (eeEq v 80)) (eeEq v 110)) (eeEq v 140)

/-- cover.eq(40).Or(cover.eq(90)).Or(cover.eq(120)).Or(cover.eq(130))
.Or(cover.eq(170)), pointwise on v. -/
def costClass2 (v : ℤ) : ℤ :=
  eeOr (eeOr (eeOr (eeOr (eeEq v 40) (eeEq v 90)) (eeEq v 120)) (eeEq v 130)) (eeEq v 170)

/-- cover.eq(50).Or(cover.eq(70)).Or(cover.eq(150)).Or(cover.eq(160)),
pointwise on v. -/
def costClass3 (v : ℤ) : ℤ :=
  eeOr (eeOr (eeOr (eeEq v 50) (eeEq v 70)) (eeEq v 150)) (eeEq v 160)

/-- The cost expression of the cumulative-cost notebook, pointwise:
class1.multiply(1).add(class2.multiply(2).add(class3.multiply(3))). -/
def costPoint (v : ℤ) : ℤ :=
  costClass1 v * 1 + (costClass2 v * 2 + costClass3 v * 3)

/-- The first class indicator is 1 exactly on 60, 80, 110, 140. -/
theorem costClass1_eval (v : ℤ) :
    costClass1 v = if v = 60 ∨ v = 80 ∨ v = 110 ∨ v = 140 then 1 else 0 := by
  simp only [costClass1, eeOr, eeEq]
  split_ifs <;> omega

/-- The second class indicator is 1 exactly on 40, 90, 120, 130, 170. -/
theorem costClass2_eval (v : ℤ) :
    costClass2 v = if v = 40 ∨ v = 90 ∨ v = 120 ∨ v = 130 ∨ v = 170 then 1 else 0 := by
  simp only [costClass2, eeOr, eeEq]
  split_ifs <;> omega

/-- The third class indicator is 1 exactly on 50, 70, 150, 160. -/
theorem costClass3_eval (v : ℤ) :
    costClass3 v = if v = 50 ∨ v = 70 ∨ v = 150 ∨ v = 160 then 1 else 0 := by
  simp only [costClass3, eeOr, eeEq]
  split_ifs <;> omega

/-!
Pointwise semantics of the hotspots chain of the object-based-methods
notebook: kelvin.gt(303).selfMask().rename(hotspots).
-/

/-- Pointwise gt against a constant threshold: 1 where the value exceeds
it, else 0. -/
def eeGt (x thr : ℚ) : ℤ := if thr < x then 1 else 0

/-- selfMask: mask out the pixels whose value is zero; already-masked
pixels stay masked. -/
def eeSelfMask : Option ℤ → Option ℤ
  | none => none
  | some x => if x = 0 then none else some x

/-- rename changes the band name only; pixel values are untouched. -/
def eeRename (_bandName : String) (p : Option ℤ) : Option ℤ := p

/-- The hotspots image, pointwise: the input pixel p of the kelvin band
(none where clipped away) through gt(303), selfMask and rename. -/
def hotspotsPoint (p : Option ℚ) : Option ℤ :=
  eeRename "hotspots" (eeSelfMask (p.map (fun v => eeGt v 303)))

/-- Claim C4: pointwise, the cost expression of the cumulative-cost
notebook evaluates to 1 on GLOBCOVER classes 60, 80, 110, 140, to 2 on
40, 90, 120, 130, 170, to 3 on 50, 70, 150, 160, and to 0 on every other
class value; the three class groups are pairwise disjoint, so at most one
of the three summed terms is nonzero at any value, which the vanishing
pairwise products express. -/
theorem globcover_cost_pointwise :
    (∀ v : ℤ, costPoint v =
      if v = 60 ∨ v = 80 ∨ v = 110 ∨ v = 140 then 1
      else if v = 40 ∨ v = 90 ∨ v = 120 ∨ v = 130 ∨ v = 170 then 2
      else if v = 50 ∨ v = 70 ∨ v = 150 ∨ v = 160 then 3
      else 0)
    ∧ (∀ v : ℤ, costClass1 v * costClass2 v = 0)
    ∧ (∀ v : ℤ, costClass1 v * costClass3 v = 0)
    ∧ (∀ v : ℤ, costClass2 v * costClass3 v = 0) := by
  refine ⟨fun v => ?_, fun v => ?_, fun v => ?_, fun v => ?_⟩ <;>
    simp only [costPoint, costClass1_eval, costClass2_eval, costClass3_eval] <;>
    split_ifs <;> omega

/-- Claim C10: the hotspots image is binary-masked: a present kelvin pixel
maps to exactly 1 when its temperature exceeds 303 and is masked out (not
carried as 0) otherwise, and pixels masked by the clip stay masked, so no
pixel of the hotspots image ever carries the value 0. -/
theorem hotspots_binary_masked :
    (∀ v : ℚ, hotspotsPoint (some v) = if 303 < v then some 1 else none)
    ∧ hotspotsPoint none = none := by
  refine ⟨fun v => ?_, rfl⟩
  by_cases h : (303 : ℚ) < v <;>
    simp [hotspotsPoint, eeRename, eeSelfMask, eeGt, h]

/-- The property claim C1 states: every cell of every notebook performs at
most one blocking remote call. -/
def perCellSingleCall : Bool :=
  corpus.all (fun nb => nb.cells.all (fun c => decide ((remoteTrace c).length ≤ 1)))

/-- Claim C1 counterexample: the NDVI display cell of the mapping notebook,
which loops three times calling Map.addLayer twice per iteration, performs
six blocking remote calls, not at most one; so the per-cell single-call
property is false on the corpus. -/
theorem remote_calls_per_cell_counterexample :
    perCellSingleCall = false ∧ 1 < (remoteTrace ndviCellNamed).length := by
  exact ⟨by decide, by decide⟩

/-- Claim C1 (amended): each executed getInfo or Map.addLayer invocation
performs exactly one blocking remote call, so a cell performs as many
remote calls as such invocations it executes, not at most one per cell;
per notebook the per-cell counts are 0 0 1 1 0 6 6 (mapping),
0 0 1 1 1 1 1 1 1 1 1 0 (image information), 0 0 1 1 2 (edge detection),
0 0 2 1 1 1 1 1 0 (object-based methods) and 0 0 3 0 (cumulative cost). -/
theorem remote_calls_per_invocation :
    corpus.map (fun nb => nb.cells.map (fun c => (remoteTrace c).length))
      = [[0, 0, 1, 1, 0, 6, 6], [0, 0, 1, 1, 1, 1, 1, 1, 1, 1, 1, 0],
         [0, 0, 1, 1, 2], [0, 0, 2, 1, 1, 1, 1, 1, 0], [0, 0, 3, 0]]
    ∧ corpus.all (fun nb => nb.cells.all
        (fun c => (remoteTrace c).length == cellSubmitCount c)) = true := by
  exact ⟨by decide, by decide⟩

/-- Operators of the Earth Engine client API that pull raster pixel values
or download URLs for raster data to the client. -/
def pixelFetchOps : List String :=
  ["sampleRectangle", "sampleRegions", "sample", "getDownloadURL",
   "getThumbURL", "getDownloadUrl", "getThumbUrl", "computePixels",
   "reduceRegion", "reduceRegions"]

/-- Claim C2: every remote call of every notebook is a getInfo round trip
returning scalar or metadata values or an addLayer round trip returning a
tile URL, never an array of raw pixel values; and no expression of the
corpus ever invokes a pixel-fetching operator, so the client never holds
raw pixel data. -/
theorem no_raw_pixels_client_side :
    corpus.all (fun nb => (nbTrace nb).all
      (fun ev => resultKind ev != some ResKind.pixelArray)) = true
    ∧ corpus.all (fun nb => pixelFetchOps.all
      (fun op => nbOpCount op nb == 0)) = true := by
  exact ⟨by decide, by decide⟩

/-- Claim C3: each of the four named algorithms appears in the corpus as
exactly one call node of the client-built expression trees — one
ee.Algorithms.CannyEdgeDetector node, one ee.Algorithms.HoughTransform
node, one cumulativeCost node and one connectedComponents node — and,
call nodes being opaque remote procedures in this embedding, no local
per-pixel implementation of any of them exists in the source. -/
theorem named_algorithms_single_call_nodes :
    (corpus.map (nbOpCount "Algorithms.CannyEdgeDetector")).sum = 1
    ∧ (corpus.map (nbOpCount "Algorithms.HoughTransform")).sum = 1
    ∧ (corpus.map (nbOpCount "cumulativeCost")).sum = 1
    ∧ (corpus.map (nbOpCount "connectedComponents")).sum = 1 := by
  exact ⟨by decide, by decide, by decide, by decide⟩

/-- Claim C5: across the possible worlds, the install guard of the
bootstrap cell pip-installs geehydro exactly when importing it raises
ImportError (that is, when it is not installed), and when the import
succeeds the guard performs the import attempt only, leaves the
environment unchanged and raises nothing. -/
theorem install_iff_import_error :
    ∀ g i1 i2 : Bool,
      ((execStmts (world0 g i1 i2) guardStmts).2.1.count (PyAct.pipInstall "geehydro")
        = if g then 0 else 1)
      ∧ execStmts (world0 true i1 i2) guardStmts
          = (world0 true i1 i2, [PyAct.loadPkg "geehydro"], none) := by
  decide

/-- Claim C6: in the session-initialization block, ee.Authenticate is
called exactly when the first ee.Initialize raises, in which case
ee.Initialize runs exactly once more after authentication; the block
completes without an uncaught exception precisely when the first or the
retried ee.Initialize succeeds. -/
theorem authenticate_iff_first_initialize_fails :
    ∀ g i1 i2 : Bool,
      (execStmts (world0 g i1 i2) initAuthStmts).2
        = if i1 then ([PyAct.eeInitialize], none)
          else ([PyAct.eeInitialize, PyAct.eeAuthenticate, PyAct.eeInitialize],
                if i2 then none else some PyErr.errGeneric) := by
  decide

/-- The property claim C7 states: no statement of any notebook carries an
exception handler. -/
def corpusNoHandlers : Bool :=
  corpus.all (fun nb => nb.cells.all (fun c => stmtListHandlerCount c == 0))

/-- Claim C7 counterexample: every notebook carries exception handlers in
its bootstrap cell, and concretely the install guard run with geehydro
missing catches the ImportError and recovers by pip-installing instead of
letting the exception propagate. -/
theorem exception_handlers_exist_counterexample :
    corpusNoHandlers = false
    ∧ execStmts (world0 false true true) guardStmts
        = ({ world0 false true true with geehydroInstalled := true },
           [PyAct.loadPkg "geehydro", PyAct.printMsg, PyAct.pipInstall "geehydro"],
           none) := by
  exact ⟨by decide, by decide⟩

/-- Claim C7 (amended): the only exception handling in the notebooks is
the two handlers of the shared bootstrap cell — the install-if-missing
guard and the authenticate-and-retry block around ee.Initialize;
every later cell carries no handler, and an ee.Initialize failure outside
any try block propagates uncaught. -/
theorem handlers_only_in_bootstrap :
    corpus.map (fun nb => nb.cells.map stmtListHandlerCount)
      = [[2, 0, 0, 0, 0, 0, 0], [2, 0, 0, 0, 0, 0, 0, 0, 0, 0, 0, 0],
         [2, 0, 0, 0, 0], [2, 0, 0, 0, 0, 0, 0, 0, 0], [2, 0, 0, 0]]
    ∧ (∀ g i2 : Bool,
        (execStmts (world0 g false i2) [.act .eeInitialize]).2.2
          = some PyErr.errGeneric) := by
  exact ⟨by decide, by decide⟩

/-- The property claim C8 states: in every notebook at most one cell
mutates the map-widget state. -/
def atMostOneMutatingCell : Bool :=
  corpus.all (fun nb => decide (mutatingCellCount nb ≤ 1))

/-- Claim C8 counterexample: the Map widget of the object-based-methods
notebook accumulates state across eight distinct cells (the basemap cell,
six layer-adding cells and the control cell), so an object is mutated
across more than one cell. -/
theorem map_state_mutated_across_cells_counterexample :
    atMostOneMutatingCell = false ∧ 1 < mutatingCellCount objectNb := by
  exact ⟨by decide, by decide⟩

/-- Claim C8 (amended): the Map widget accumulates layer and display
state across several cells in every notebook — 2, 3, 4, 8 and 3 mutating
cells respectively — and ee.Initialize is re-attempted, exactly once,
after a failed first attempt; but only map-widget events ever change the
threaded client state, and nothing else is re-attempted. -/
theorem mutable_state_only_map_and_init_retry :
    corpus.map mutatingCellCount = [2, 3, 4, 8, 3]
    ∧ (∀ st : MapState, ∀ ev : Event, applyEvent st ev = st ∨ isMapEvent ev = true)
    ∧ (∀ g i2 : Bool,
        (execStmts (world0 g false i2) initAuthStmts).2.1.count PyAct.eeInitialize
          = 2) := by
  refine ⟨by decide, fun st ev => ?_, by decide⟩
  cases ev <;> simp [applyEvent, isMapEvent]

/-- The property claim C9 states: the phase sequence of every notebook is
weakly increasing through the six steps — bootstrap, initialization,
basemap, expression construction, submission, rendering. -/
def sixStepStrictOrder : Bool := corpus.all (fun nb => sortedB (phaseSeq nb))

/-- Claim C9 counterexample: no notebook performs the six steps in
globally sorted order; in the mapping notebook a basemap-construction
event (the folium.Map rebuilt inside the NDVI cell) and expression
constructions occur after earlier submission events, so the phase
sequence of the mapping notebook is not sorted. -/
theorem six_step_global_order_counterexample :
    sixStepStrictOrder = false ∧ sortedB (phaseSeq mappingNb) = false := by
  exact ⟨by decide, by decide⟩

/-- Claim C9 (amended): in every notebook the FIRST occurrence of each of
the six steps comes in the stated order — bootstrap, then session
initialization, then basemap construction, then expression construction,
then submission, then rendering — and every submitted expression is a
fully constructed local payload: each variable it references was bound by
an earlier construction in the trace.  After the first occurrences the
steps interleave, which is what the counterexample records. -/
theorem six_step_first_occurrence_order :
    corpus.all (fun nb => orderedSteps (phaseSeq nb)) = true
    ∧ corpus.all (fun nb => submitsWellFormed [] (nbTrace nb)) = true := by
  exact ⟨by decide, by decide⟩
